import Mathlib

/-!
Verification of the Prompt Configuration & Composition Engine of the
AI-Transcription-Notepad repository.

The repository splits into UI widget files (present under `src/app/src/`) and
core modules (`prompt_elements.py`, `prompt_library.py`, `config.py`) that the
widgets import.  The definitions below embed:

* the element-composition algorithm (`build_prompt_from_elements`) and the
  final-prompt assembly (`build_final_prompt`), modelled from spec sections
  4.3 and 4.4 because `prompt_elements.py` / the composition part of
  `config.py` are not among the available sources;
* the prompt library (`PromptLibrary`: builtins, overlays, customs,
  favorites), modelled from spec section 4.2 because `prompt_library.py` is
  not among the available sources;
* the favorites-bar row bucketing and refresh logic, translated directly from
  `src/app/src/favorites_bar.py`;
* the stack-builder save-to-config logic, translated directly from
  `src/app/src/stack_builder.py`.
-/

/-! ## Element catalog (spec section 4.1 and 4.3) -/

/-- Fixed element categories of the catalog: Format, Style, Grammar. -/
inductive ElementCategory where
  | format
  | style
  | grammar
deriving DecidableEq, Repr

/-- Modelled from the spec: a `PromptElement` of the missing
`prompt_elements.py` — a named, categorized prompt fragment whose
`instruction` text is contributed to the composed prompt when selected. -/
structure PromptElement where
  key : String
  category : ElementCategory
  name : String
  description : String
  instruction : String
deriving DecidableEq, Repr

/-- Instructions of the catalog elements of category `c` whose key occurs in
`keys`, in catalog definition order (spec section 4.3 steps 1 and 2: partition
by category preserving catalog order; unknown keys are dropped). -/
def instructionsFor (catalog : List PromptElement) (c : ElementCategory)
    (keys : List String) : List String :=
  (catalog.filter (fun e => decide (e.category = c) && decide (e.key ∈ keys))).map
    (fun e => e.instruction)

/-- Heading text of a category section. -/
def categoryHeading : ElementCategory → String
  | .format => "Format"
  | .style => "Style"
  | .grammar => "Grammar"

/-- Renders one category section: heading plus newline-joined instructions;
empty when the category matched nothing (spec section 4.3 steps 3 and 4:
empty categories are omitted entirely). -/
def sectionText (heading : String) (instrs : List String) : String :=
  if instrs.isEmpty then "" else heading ++ ":\n" ++ String.intercalate "\n" instrs

/-- Joins the non-empty sections with a blank line between them, dropping
empty sections (spec section 4.3: empty categories omitted, sections
separated by a blank line). -/
def joinNonempty : List String → String
  | [] => ""
  | s :: rest =>
    let r := joinNonempty rest
    if s = "" then r
    else if r = "" then s
    else s ++ "\n\n" ++ r

/-- Modelled from the spec: `build_prompt_from_elements` of the missing
`prompt_elements.py` (spec section 4.3): partition the requested keys by
category in catalog order, drop unknown keys, and emit the Format, Style and
Grammar sections in that fixed order. -/
def build_prompt_from_elements (catalog : List PromptElement)
    (keys : List String) : String :=
  joinNonempty
    [sectionText (categoryHeading .format) (instructionsFor catalog .format keys),
     sectionText (categoryHeading .style) (instructionsFor catalog .style keys),
     sectionText (categoryHeading .grammar) (instructionsFor catalog .grammar keys)]

/-- Whether a key names an element of the catalog. -/
def knownKey (catalog : List PromptElement) (k : String) : Bool :=
  catalog.any (fun e => e.key == k)

/-- Extracts the id part of a `"custom:<id>"` custom-prompt reference. -/
def customRefId (k : String) : Option String :=
  if k.take 7 = "custom:" then some (k.drop 7) else none

/-! ## Prompt library (spec section 4.2) -/

/-- Modelled from the spec: the `PromptConfig` entity of the missing
`prompt_library.py` — a reusable prompt preset (spec section 3). -/
structure PromptConfig where
  id : String
  name : String
  description : String
  category : String
  instruction : String
  adherence : String
  formality : Option String
  verbosity : Option String
  use_business_signature : Bool
  is_builtin : Bool
  is_modified : Bool
  is_favorite : Bool
  favorite_order : Int
deriving DecidableEq, Repr

/-- Modelled from the spec: a sparse modification overlay recorded against a
builtin id — only the supplied fields are present (spec sections 3 and 4.2). -/
structure FieldOverrides where
  name : Option String
  description : Option String
  instruction : Option String
  adherence : Option String
  formality : Option (Option String)
  verbosity : Option (Option String)
  use_business_signature : Option Bool
deriving DecidableEq, Repr

/-- An overlay supplying no fields at all. -/
def FieldOverrides.empty : FieldOverrides :=
  ⟨none, none, none, none, none, none, none⟩

/-- Field-level merge of a newer overlay on top of an older one: supplied
fields of the newer overlay win, omitted fields keep the older value (spec
section 4.2 `modify_builtin`: overlay application is a field-level merge,
not a whole-object replace). -/
def FieldOverrides.merge (old new : FieldOverrides) : FieldOverrides where
  name := new.name <|> old.name
  description := new.description <|> old.description
  instruction := new.instruction <|> old.instruction
  adherence := new.adherence <|> old.adherence
  formality := new.formality <|> old.formality
  verbosity := new.verbosity <|> old.verbosity
  use_business_signature := new.use_business_signature <|> old.use_business_signature

/-- Applies an overlay to a builtin template at read time: overlaid fields
replace the template value, the rest keep the builtin default, and the result
is marked modified (spec section 4.2). -/
def applyOverrides (b : PromptConfig) (ov : FieldOverrides) : PromptConfig :=
  { b with
    name := ov.name.getD b.name
    description := ov.description.getD b.description
    instruction := ov.instruction.getD b.instruction
    adherence := ov.adherence.getD b.adherence
    formality := ov.formality.getD b.formality
    verbosity := ov.verbosity.getD b.verbosity
    use_business_signature := ov.use_business_signature.getD b.use_business_signature
    is_modified := true }

/-- Modelled from the spec: the persisted state of the missing
`prompt_library.py` — builtin templates, the overlay map, custom entries and
the favorites map (spec sections 4.2 and 6). -/
structure Library where
  builtins : List PromptConfig
  overlays : List (String × FieldOverrides)
  customs : List PromptConfig
  favorites : List (String × Int)
deriving DecidableEq, Repr

/-- Error taxonomy of the library operations (spec section 7). -/
inductive LibErr where
  | validation
  | notFound
  | invalidOperation
deriving DecidableEq, Repr

/-- Result of a mutating library call: success, or one of the errors of the
taxonomy. -/
inductive LibResult where
  | ok
  | error (e : LibErr)
deriving DecidableEq, Repr

/-- Outcome of a mutating library call: the result and the (possibly
unchanged) library state — a failed call leaves the state untouched (spec
section 7: no partial write occurs). -/
structure LibOutcome where
  result : LibResult
  state : Library
deriving DecidableEq, Repr

/-- Resolves a builtin template through its overlay, if one is recorded;
`is_modified` is true exactly when an overlay is recorded (spec section 3). -/
def resolveBuiltin (lib : Library) (b : PromptConfig) : PromptConfig :=
  match List.lookup b.id lib.overlays with
  | some ov => applyOverrides b ov
  | none => { b with is_modified := false }

/-- Stamps the favorites membership and order onto a resolved config. -/
def applyFavorite (lib : Library) (c : PromptConfig) : PromptConfig :=
  match List.lookup c.id lib.favorites with
  | some o => { c with is_favorite := true, favorite_order := o }
  | none => { c with is_favorite := false }

/-- Modelled from the spec: `PromptLibrary.get` of the missing
`prompt_library.py` — a builtin (with its overlay applied) or a custom entry;
absent is a normal result (spec section 4.2). -/
def Library.get (lib : Library) (id : String) : Option PromptConfig :=
  match lib.builtins.find? (fun b => b.id == id) with
  | some b => some (applyFavorite lib (resolveBuiltin lib b))
  | none => (lib.customs.find? (fun c => c.id == id)).map (applyFavorite lib)

/-- Replaces the overlay recorded for `id` by its field-level merge with the
newly supplied fields, creating it when absent (dictionary update
semantics). -/
def upsertOverlay (os : List (String × FieldOverrides)) (id : String)
    (ov : FieldOverrides) : List (String × FieldOverrides) :=
  match os with
  | [] => [(id, ov)]
  | (k, o) :: rest =>
    if k = id then (id, FieldOverrides.merge o ov) :: rest
    else (k, o) :: upsertOverlay rest id ov

/-- Modelled from the spec: `PromptLibrary.modify_builtin` of the missing
`prompt_library.py` — fails with NotFoundError unless `id` is a known
builtin; stores only the supplied fields in the overlay, field-level merged
with any previous overlay (spec section 4.2). -/
def Library.modify_builtin (lib : Library) (id : String)
    (ov : FieldOverrides) : LibOutcome :=
  if (lib.builtins.find? (fun b => b.id == id)).isSome then
    { result := .ok, state := { lib with overlays := upsertOverlay lib.overlays id ov } }
  else
    { result := .error .notFound, state := lib }

/-- Modelled from the spec: `PromptLibrary.reset_builtin` of the missing
`prompt_library.py` — clears the overlay entirely; a silent no-op when there
was none (spec section 4.2). -/
def Library.reset_builtin (lib : Library) (id : String) : Library :=
  { lib with overlays := lib.overlays.filter (fun p => p.1 ≠ id) }

/-- Modelled from the spec: `PromptLibrary.delete_custom` of the missing
`prompt_library.py` — fails with InvalidOperationError for a builtin id;
removes a custom entry together with its favorites record (spec section
4.2). -/
def Library.delete_custom (lib : Library) (id : String) : LibOutcome :=
  if (lib.builtins.find? (fun b => b.id == id)).isSome then
    { result := .error .invalidOperation, state := lib }
  else if (lib.customs.find? (fun c => c.id == id)).isSome then
    { result := .ok
      state := { lib with
        customs := lib.customs.filter (fun c => c.id ≠ id)
        favorites := lib.favorites.filter (fun p => p.1 ≠ id) } }
  else
    { result := .error .notFound, state := lib }

/-- Largest favorite order currently assigned: the maximum of the recorded
orders of a non-empty favorites list (0 for an empty list, which
`nextFavoriteOrder` never consults). -/
def maxFavoriteOrder : List (String × Int) → Int
  | [] => 0
  | [p] => p.2
  | p :: q :: rest => max p.2 (maxFavoriteOrder (q :: rest))

/-- Next favorite order: `max(existing) + 10`, or `0` if none exist (spec
section 4.2 `add_favorite`). -/
def nextFavoriteOrder (favs : List (String × Int)) : Int :=
  if favs.isEmpty then 0 else maxFavoriteOrder favs + 10

/-- Modelled from the spec: `PromptLibrary.add_favorite` of the missing
`prompt_library.py` — fails with NotFoundError if `id` does not resolve via
`get`; idempotent; assigns the next favorite order to a newly added entry
(spec section 4.2). -/
def Library.add_favorite (lib : Library) (id : String) : LibOutcome :=
  if (lib.get id).isNone then
    { result := .error .notFound, state := lib }
  else if (List.lookup id lib.favorites).isSome then
    { result := .ok, state := lib }
  else
    { result := .ok
      state := { lib with favorites := lib.favorites ++ [(id, nextFavoriteOrder lib.favorites)] } }

/-! ## Composition engine (spec section 4.4) -/

/-- Modelled from the spec: one foundation rule section (heading plus an
ordered bullet list) supplied by the foundation-prompt collaborator (spec
sections 4.4 step 1 and 6). -/
structure FoundationSection where
  heading : String
  bullets : List String
deriving DecidableEq, Repr

/-- Modelled from the spec: the global style configuration consumed by the
composition engine (spec section 3).  Enhancement flags are a fixed list of
(enabled, directive-text) pairs in their registration order. -/
structure GlobalStyle where
  format_preset : String
  formality_level : String
  verbosity_reduction : String
  selected_styles : List String
  writing_sample : String
  prompt_infer_format : Bool
  enhancements : List (Bool × String)
deriving DecidableEq, Repr

/-- Renders one foundation section as its heading plus a bullet list. -/
def foundationSectionText (s : FoundationSection) : String :=
  s.heading ++ "\n" ++ String.intercalate "\n" (s.bullets.map (fun b => "- " ++ b))

/-- Renders the always-applied foundation rules (spec section 4.4 step 1). -/
def foundationText (fs : List FoundationSection) : String :=
  String.intercalate "\n\n" (fs.map foundationSectionText)

/-- Minimal-transformation directive appended in verbatim mode (spec section
4.4 step 2). -/
def verbatimDirective : String :=
  "Apply only minimal transformation; keep the text as close to the original speech as possible."

/-- Directive instructing the model to infer the structure from the content
(spec section 4.4 step 3). -/
def inferFormatDirective : String :=
  "Infer the most appropriate structure and format from the content itself instead of applying a fixed format."

/-- Format section (spec section 4.4 step 3): the infer directive wins when
`prompt_infer_format` is set; the `"general"` sentinel and an unresolvable
preset contribute nothing; otherwise the resolved config's instruction
followed by its adherence text. -/
def formatSection (lib : Library) (gs : GlobalStyle) : String :=
  if gs.prompt_infer_format then inferFormatDirective
  else if gs.format_preset = "general" then ""
  else
    match lib.get gs.format_preset with
    | some c => if c.adherence = "" then c.instruction else c.instruction ++ "\n" ++ c.adherence
    | none => ""

/-- Effective formality: the selected config's override if present, else the
global level (spec section 4.4 step 4 and the override-resolution rule). -/
def effectiveFormality (lib : Library) (gs : GlobalStyle) : String :=
  match (lib.get gs.format_preset).bind (fun c => c.formality) with
  | some f => f
  | none => gs.formality_level

/-- Tone section: a single directive sentence per formality level; the
`"neutral"` level renders nothing (spec sections 4.4 step 4 and 8). -/
def toneSection (lib : Library) (gs : GlobalStyle) : String :=
  let f := effectiveFormality lib gs
  if f = "neutral" then "" else "Use a " ++ f ++ " tone throughout."

/-- Effective verbosity reduction: override-then-global (spec section 4.4
step 5). -/
def effectiveVerbosity (lib : Library) (gs : GlobalStyle) : String :=
  match (lib.get gs.format_preset).bind (fun c => c.verbosity) with
  | some v => v
  | none => gs.verbosity_reduction

/-- Verbosity section: zero or one directive depending on the level;
`"none"` renders nothing (spec section 4.4 step 5). -/
def verbositySection (lib : Library) (gs : GlobalStyle) : String :=
  let v := effectiveVerbosity lib gs
  if v = "none" then "" else "Reduce verbosity to the " ++ v ++ " level."

/-- Instructions of the custom-prompt references among the selected keys,
resolved through the library; unresolvable ids contribute nothing (spec
section 4.3 step 5). -/
def customStyleTexts (lib : Library) (keys : List String) : List String :=
  keys.filterMap (fun k =>
    match customRefId k with
    | some i => (lib.get i).map (fun c => c.instruction)
    | none => none)

/-- Style-elements section of the final prompt: the element composition of
the selected style keys, with custom-prompt references resolved into the
Style section (spec sections 4.3 step 5 and 4.4 step 6). -/
def elementsSection (catalog : List PromptElement) (lib : Library)
    (keys : List String) : String :=
  joinNonempty
    [sectionText (categoryHeading .format) (instructionsFor catalog .format keys),
     sectionText (categoryHeading .style)
       (instructionsFor catalog .style keys ++ customStyleTexts lib keys),
     sectionText (categoryHeading .grammar) (instructionsFor catalog .grammar keys)]

/-- Writing-sample reference block, clearly delimited, present only when the
sample is non-empty (spec section 4.4 step 7). -/
def writingSampleSection (gs : GlobalStyle) : String :=
  if gs.writing_sample = "" then ""
  else
    "--- Writing sample: mimic its tone and structure only, do not copy its content ---\n"
      ++ gs.writing_sample ++ "\n--- End of writing sample ---"

/-- Directive texts of the enabled enhancement flags, in registration order
(spec section 4.4 step 8). -/
def flagTexts (gs : GlobalStyle) : List String :=
  gs.enhancements.filterMap (fun p => if p.1 then some p.2 else none)

/-- Modelled from the spec: `build_final_prompt` of the missing composition
module (spec section 4.4).  In verbatim mode the minimal-transformation
directive is appended and the Format, Tone, Verbosity and element steps are
all skipped — spec section 4.4 step 2 skips steps 3 to 5, and the verbatim
short-circuit property of spec section 8 additionally excludes the
Format/Style/Grammar element sections. -/
def build_final_prompt (fs : List FoundationSection) (lib : Library)
    (catalog : List PromptElement) (gs : GlobalStyle) : String :=
  if gs.format_preset = "verbatim" then
    joinNonempty
      ([foundationText fs, verbatimDirective, writingSampleSection gs] ++ flagTexts gs)
  else
    joinNonempty
      ([foundationText fs, formatSection lib gs, toneSection lib gs,
        verbositySection lib gs, elementsSection catalog lib gs.selected_styles,
        writingSampleSection gs] ++ flagTexts gs)

/-! ## Favorites bar (from `src/app/src/favorites_bar.py`) -/

/-- The `ROW_BOUNDARIES` constant of `favorites_bar.py`: cutoff points for
each row. -/
def ROW_BOUNDARIES : List Int := [10, 20, 30, 40, 50]

/-- Loop body of `FavoritesBar._get_row_for_order`: index of the first
boundary strictly above the order, or the number of boundaries when the loop
falls through. -/
def rowForAux (order : Int) : List Int → Nat
  | [] => 0
  | b :: rest => if order < b then 0 else rowForAux order rest + 1

/-- The `FavoritesBar._get_row_for_order` method of `favorites_bar.py`. -/
def getRowForOrder (order : Int) : Nat :=
  rowForAux order ROW_BOUNDARIES

/-- The `MAX_FAVORITES` constant of `FavoritesBar`. -/
def MAX_FAVORITES : Nat := 30

/-- Stable insertion of a favorite into a list sorted by favorite order,
placing it after all entries with a strictly smaller order and before equal
ones, exactly like Python's stable `list.sort`. -/
def insertByOrder (p : PromptConfig) : List PromptConfig → List PromptConfig
  | [] => [p]
  | q :: rest =>
    if q.favorite_order < p.favorite_order then q :: insertByOrder p rest
    else p :: q :: rest

/-- Stable sort by favorite order, as `prompts.sort(key=...)` inside
`FavoritesBar.refresh`. -/
def sortByOrder : List PromptConfig → List PromptConfig
  | [] => []
  | p :: rest => insertByOrder p (sortByOrder rest)

/-- The button-creating core of `FavoritesBar.refresh`: the library favorites
are truncated to `MAX_FAVORITES`, grouped into rows by
`_get_row_for_order(favorite_order)`, rows are emitted in increasing row
number (an empty row contributes nothing, exactly like an absent dictionary
key), and each row is sorted by favorite order; one button is created per
listed prompt. -/
def refreshButtons (favorites : List PromptConfig) : List PromptConfig :=
  let favs := favorites.take MAX_FAVORITES
  ((List.range (ROW_BOUNDARIES.length + 1)).map
    (fun r => sortByOrder (favs.filter (fun p => getRowForOrder p.favorite_order == r)))).flatten

/-! ## Stack builder save-to-config (from `src/app/src/stack_builder.py`) -/

/-- The quick-format radio keys of `StackBuilderWidget.FORMAT_QUICK_OPTIONS`. -/
def FORMAT_QUICK_KEYS : List String :=
  ["none", "ai_prompt", "email", "meeting_agenda", "meeting_minutes", "social_post", "todo"]

/-- The part of the application `Config` object written by
`StackBuilderWidget._save_to_config`. -/
structure Config where
  format_preset : String
  formality_level : String
  selected_styles : List String
deriving DecidableEq, Repr

/-- The widget state read by `StackBuilderWidget._save_to_config`: whether
the verbatim base radio is checked, the checked quick-format radio key (the
button group is exclusive, so at most one), the format combo's current data
(the empty string for the `"Select..."` placeholder), the same for tone, and
the checked style keys. -/
structure StackBuilderState where
  verbatimChecked : Bool
  formatRadio : Option String
  formatCombo : String
  toneRadio : Option String
  toneCombo : String
  styleChecks : List String
deriving DecidableEq, Repr

/-- The `StackBuilderWidget._save_to_config` method of `stack_builder.py`:
verbatim wins; else the checked quick-format key (with `"none"` mapped to
`"general"`); else a truthy combo selection; else `"general"`.  Tone: the
checked tone radio; else a truthy tone combo selection; else `"neutral"`. -/
def save_to_config (st : StackBuilderState) (cfg : Config) : Config :=
  let cfg1 :=
    if st.verbatimChecked then { cfg with format_preset := "verbatim" }
    else
      match st.formatRadio with
      | some k => { cfg with format_preset := if k = "none" then "general" else k }
      | none =>
        if st.formatCombo ≠ "" then { cfg with format_preset := st.formatCombo }
        else { cfg with format_preset := "general" }
  let cfg2 :=
    match st.toneRadio with
    | some k => { cfg1 with formality_level := k }
    | none =>
      if st.toneCombo ≠ "" then { cfg1 with formality_level := st.toneCombo }
      else { cfg1 with formality_level := "neutral" }
  { cfg2 with selected_styles := st.styleChecks }

/-- Whether a selected key resolves during composition: a catalog element
key, or a custom-prompt reference whose id resolves through the library. -/
def resolvableKey (catalog : List PromptElement) (lib : Library) (k : String) : Bool :=
  knownKey catalog k ||
    (match customRefId k with
     | some i => (lib.get i).isSome
     | none => false)

/-! ## Sample data used by the concrete witnesses -/

/-- A small concrete element catalog. -/
def sampleCatalog : List PromptElement :=
  [{ key := "bullet_points", category := .format, name := "Bullet Points",
     description := "Format as bullets", instruction := "Format the output as a bulleted list." },
   { key := "concise", category := .style, name := "Concise",
     description := "Keep it brief", instruction := "Keep the wording concise." },
   { key := "oxford_comma", category := .grammar, name := "Oxford Comma",
     description := "Use the Oxford comma", instruction := "Use the Oxford comma in lists." }]

/-- A concrete builtin template. -/
def sampleBuiltinEmail : PromptConfig where
  id := "email"
  name := "Email"
  description := "Format as an email"
  category := "work"
  instruction := "Format the text as an email with greeting and signature."
  adherence := "Keep the greeting on its own line."
  formality := none
  verbosity := none
  use_business_signature := false
  is_builtin := true
  is_modified := false
  is_favorite := false
  favorite_order := 0

/-- A concrete custom entry. -/
def sampleCustom : PromptConfig where
  id := "c1"
  name := "My Notes"
  description := "Personal note format"
  category := "custom"
  instruction := "Format the text as a personal note."
  adherence := ""
  formality := none
  verbosity := none
  use_business_signature := false
  is_builtin := false
  is_modified := false
  is_favorite := false
  favorite_order := 0

/-- A concrete library state: one builtin, one favorited custom entry, no
overlay. -/
def sampleLib : Library where
  builtins := [sampleBuiltinEmail]
  overlays := []
  customs := [sampleCustom]
  favorites := [("c1", 0)]

/-- A concrete overlay supplying only the instruction field, mirroring the
spec example `modify_builtin("email", \x7b"instruction": "X"\x7d)`. -/
def sampleOverrides : FieldOverrides where
  name := none
  description := none
  instruction := some "X"
  adherence := none
  formality := none
  verbosity := none
  use_business_signature := none

/-- A concrete foundation rule set. -/
def sampleFoundation : List FoundationSection :=
  [{ heading := "Core rules", bullets := ["Remove filler words"] }]

/-- A concrete global style in verbatim mode. -/
def sampleVerbatimStyle : GlobalStyle where
  format_preset := "verbatim"
  formality_level := "neutral"
  verbosity_reduction := "none"
  selected_styles := []
  writing_sample := ""
  prompt_infer_format := false
  enhancements := []

/-- A concrete global style with infer-format set and an explicit format
preset. -/
def sampleInferStyle : GlobalStyle where
  format_preset := "email"
  formality_level := "neutral"
  verbosity_reduction := "none"
  selected_styles := []
  writing_sample := ""
  prompt_infer_format := true
  enhancements := []

/-! ## Helper lemmas -/

lemma rowForAux_le (o : Int) (bs : List Int) : rowForAux o bs ≤ bs.length := by
  induction bs with
  | nil => simp [rowForAux]
  | cons b rest ih =>
    simp only [rowForAux, List.length_cons]
    split
    · exact Nat.zero_le _
    · exact Nat.succ_le_succ ih

lemma rowForAux_mono (bs : List Int) (a b : Int) (h : a ≤ b) :
    rowForAux a bs ≤ rowForAux b bs := by
  induction bs with
  | nil => simp [rowForAux]
  | cons c rest ih =>
    simp only [rowForAux]
    by_cases hb : b < c
    · have ha : a < c := lt_of_le_of_lt h hb
      simp [ha, hb]
    · by_cases ha : a < c
      · simp [ha, hb]
      · simp only [ha, hb, if_false]
        exact Nat.succ_le_succ ih

/-- C9 — the favorites-bar row bucketing: `_get_row_for_order` is total with
range `0..5`, maps each ten-wide order band to its row (everything at 50 or
above lands in the last row), and is monotone in the order, so bucketing
never reorders favorites relative to `favorite_order`. -/
theorem getRowForOrder_spec :
    (∀ o : Int,
      getRowForOrder o ≤ 5
      ∧ (o < 10 → getRowForOrder o = 0)
      ∧ (10 ≤ o → o < 20 → getRowForOrder o = 1)
      ∧ (20 ≤ o → o < 30 → getRowForOrder o = 2)
      ∧ (30 ≤ o → o < 40 → getRowForOrder o = 3)
      ∧ (40 ≤ o → o < 50 → getRowForOrder o = 4)
      ∧ (50 ≤ o → getRowForOrder o = 5))
    ∧ (∀ a b : Int, a ≤ b → getRowForOrder a ≤ getRowForOrder b) := by
  constructor
  · intro o
    have hle : getRowForOrder o ≤ 5 := rowForAux_le o ROW_BOUNDARIES
    refine ⟨hle, ?_, ?_, ?_, ?_, ?_, ?_⟩ <;>
      · intros
        simp only [getRowForOrder, ROW_BOUNDARIES, rowForAux]
        split_ifs <;> omega
  · intro a b h
    exact rowForAux_mono ROW_BOUNDARIES a b h

/-- Witness for C9 at concrete orders. -/
theorem getRowForOrder_spec_witness :
    getRowForOrder 25 = 2 ∧ getRowForOrder 3 ≤ getRowForOrder 17 :=
  ⟨(getRowForOrder_spec.1 25).2.2.2.1 (by decide) (by decide),
   getRowForOrder_spec.2 3 17 (by decide)⟩


/-- Projection of the saved format preset, established once by case
analysis over the widget state. -/
lemma save_to_config_format_preset (st : StackBuilderState) (cfg : Config) :
    (save_to_config st cfg).format_preset =
      (if st.verbatimChecked then "verbatim"
       else
         match st.formatRadio with
         | some k => if k = "none" then "general" else k
         | none => if st.formatCombo = "" then "general" else st.formatCombo) := by
  simp only [save_to_config]
  cases hv : st.verbatimChecked <;> rcases hr : st.formatRadio with _ | k <;>
    rcases ht : st.toneRadio with _ | t <;> simp <;> split_ifs <;> simp_all

/-- Projection of the saved formality level, established once by case
analysis over the widget state. -/
lemma save_to_config_formality (st : StackBuilderState) (cfg : Config) :
    (save_to_config st cfg).formality_level =
      (match st.toneRadio with
       | some k => k
       | none => if st.toneCombo = "" then "neutral" else st.toneCombo) := by
  simp only [save_to_config]
  cases hv : st.verbatimChecked <;> rcases hr : st.formatRadio with _ | k <;>
    rcases ht : st.toneRadio with _ | t <;> simp <;> split_ifs <;> simp_all

/-- C10 — after `_save_to_config`, `format_preset` is a non-empty string and
never the UI sentinel `"none"`: it is `"verbatim"` when the verbatim base
option is selected, otherwise the checked quick-format key with `"none"`
mapped to `"general"`, otherwise the combo selection's key, otherwise
`"general"`; and `formality_level` is always set, defaulting to `"neutral"`
when no tone is selected.  The hypotheses record the UI invariants of
`stack_builder.py`: a checked format radio carries one of the quick-option
keys, and the format combo is populated only with keys outside the quick set
(so its data is never `"none"`). -/
theorem save_to_config_spec (st : StackBuilderState) (cfg : Config)
    (hradio : ∀ k, st.formatRadio = some k → k ∈ FORMAT_QUICK_KEYS)
    (hcombo : st.formatCombo ≠ "none") :
    (save_to_config st cfg).format_preset ≠ ""
    ∧ (save_to_config st cfg).format_preset ≠ "none"
    ∧ (st.verbatimChecked = true → (save_to_config st cfg).format_preset = "verbatim")
    ∧ (∀ k, st.verbatimChecked = false → st.formatRadio = some k →
        (save_to_config st cfg).format_preset = if k = "none" then "general" else k)
    ∧ (st.verbatimChecked = false → st.formatRadio = none → st.formatCombo ≠ "" →
        (save_to_config st cfg).format_preset = st.formatCombo)
    ∧ (st.verbatimChecked = false → st.formatRadio = none → st.formatCombo = "" →
        (save_to_config st cfg).format_preset = "general")
    ∧ (∀ k, st.toneRadio = some k → (save_to_config st cfg).formality_level = k)
    ∧ (st.toneRadio = none → st.toneCombo ≠ "" →
        (save_to_config st cfg).formality_level = st.toneCombo)
    ∧ (st.toneRadio = none → st.toneCombo = "" →
        (save_to_config st cfg).formality_level = "neutral") := by
  have hpreset := save_to_config_format_preset st cfg
  have hform := save_to_config_formality st cfg
  refine ⟨?_, ?_, ?_, ?_, ?_, ?_, ?_, ?_, ?_⟩
  · rw [hpreset]
    split
    · decide
    · cases hr : st.formatRadio with
      | some k =>
        have hk := hradio k hr
        simp only []
        split
        · decide
        · fin_cases hk <;> decide
      | none =>
        simp only []
        split
        · decide
        · assumption
  · rw [hpreset]
    split
    · decide
    · cases hr : st.formatRadio with
      | some k =>
        simp only []
        split
        · decide
        · assumption
      | none =>
        simp only []
        split
        · decide
        · exact hcombo
  · intro hv; rw [hpreset, hv]; simp
  · intro k hv hr; rw [hpreset, hv, hr]; simp
  · intro hv hr hc; rw [hpreset, hv, hr]; simp [hc]
  · intro hv hr hc; rw [hpreset, hv, hr]; simp [hc]
  · intro k ht; rw [hform, ht]
  · intro ht hc; rw [hform, ht]; simp [hc]
  · intro ht hc; rw [hform, ht]; simp [hc]

/-- Witness for C10 at a concrete widget state: the quick radio `"none"` is
checked, so the saved preset is `"general"`, not `"none"`. -/
theorem save_to_config_spec_witness :
    (save_to_config
        ⟨false, some "none", "", none, "", ["bullet_points"]⟩
        ⟨"general", "neutral", []⟩).format_preset ≠ "none" :=
  (save_to_config_spec
      ⟨false, some "none", "", none, "", ["bullet_points"]⟩
      ⟨"general", "neutral", []⟩
      (fun k hk => by simp only [Option.some.injEq] at hk; subst hk; decide)
      (by decide)).2.1

lemma insertByOrder_perm (p : PromptConfig) (l : List PromptConfig) :
    (insertByOrder p l).Perm (p :: l) := by
  induction l with
  | nil => exact List.Perm.refl _
  | cons q rest ih =>
    simp only [insertByOrder]
    split
    · exact (ih.cons q).trans (List.Perm.swap p q rest)
    · exact List.Perm.refl _

lemma sortByOrder_perm (l : List PromptConfig) : (sortByOrder l).Perm l := by
  induction l with
  | nil => exact List.Perm.refl _
  | cons p rest ih =>
    exact (insertByOrder_perm p (sortByOrder rest)).trans (ih.cons p)

lemma flatten_map_perm (rs : List Nat) (f g : Nat → List PromptConfig)
    (h : ∀ r, (f r).Perm (g r)) :
    ((rs.map f).flatten).Perm ((rs.map g).flatten) := by
  induction rs with
  | nil => exact List.Perm.refl _
  | cons r rest ih =>
    simp only [List.map_cons, List.flatten_cons]
    exact (h r).append ih

lemma count_filter_row (l : List PromptConfig) (a : PromptConfig) (r : Nat) :
    (l.filter (fun p => getRowForOrder p.favorite_order == r)).count a
      = if getRowForOrder a.favorite_order = r then l.count a else 0 := by
  split
  · exact List.count_filter (by simp [*])
  · rw [List.count_eq_zero]
    intro hmem
    rw [List.mem_filter] at hmem
    simp_all

lemma count_buckets (rs : List Nat) (hnd : rs.Nodup) (l : List PromptConfig)
    (a : PromptConfig) :
    ((rs.map (fun r => l.filter (fun p => getRowForOrder p.favorite_order == r))).flatten).count a
      = if getRowForOrder a.favorite_order ∈ rs then l.count a else 0 := by
  induction rs with
  | nil => simp
  | cons r rest ih =>
    have hnotmem : r ∉ rest := (List.nodup_cons.mp hnd).1
    have ihr := ih (List.nodup_cons.mp hnd).2
    simp only [List.map_cons, List.flatten_cons, List.count_append, count_filter_row, ihr]
    by_cases h : getRowForOrder a.favorite_order = r
    · simp [h, hnotmem]
    · simp [h, List.mem_cons]

/-- C8 — `FavoritesBar.refresh` creates exactly one button per entry of the
first `MAX_FAVORITES = 30` favorites, so at most 30 buttons are shown and
favorites beyond the 30th are silently not shown. -/
theorem refresh_buttons_spec (favorites : List PromptConfig) :
    (refreshButtons favorites).Perm (favorites.take MAX_FAVORITES)
    ∧ (refreshButtons favorites).length ≤ MAX_FAVORITES := by
  have hperm : (refreshButtons favorites).Perm (favorites.take MAX_FAVORITES) := by
    unfold refreshButtons
    have h1 := flatten_map_perm (List.range (ROW_BOUNDARIES.length + 1))
      (fun r => sortByOrder ((favorites.take MAX_FAVORITES).filter
        (fun p => getRowForOrder p.favorite_order == r)))
      (fun r => (favorites.take MAX_FAVORITES).filter
        (fun p => getRowForOrder p.favorite_order == r))
      (fun r => sortByOrder_perm _)
    refine h1.trans (List.perm_iff_count.mpr (fun a => ?_))
    rw [count_buckets _ (List.nodup_range _) _ a]
    have hrow : getRowForOrder a.favorite_order < ROW_BOUNDARIES.length + 1 :=
      Nat.lt_succ_of_le (rowForAux_le a.favorite_order ROW_BOUNDARIES)
    rw [if_pos (List.mem_range.mpr hrow)]
  refine ⟨hperm, ?_⟩
  rw [hperm.length_eq, List.length_take]
  exact Nat.min_le_left _ _

lemma instructionsFor_congr (catalog : List PromptElement) (c : ElementCategory)
    (ks1 ks2 : List String) (h : ∀ e ∈ catalog, (e.key ∈ ks1 ↔ e.key ∈ ks2)) :
    instructionsFor catalog c ks1 = instructionsFor catalog c ks2 := by
  unfold instructionsFor
  congr 1
  exact List.filter_congr (fun e he => by rw [decide_eq_decide.mpr (h e he)])

/-- C4 — `build_prompt_from_elements` is input-order independent: two key
sequences containing the same set of keys produce identical strings, because
matched elements are emitted in catalog definition order within each
category.  (Determinism on equal inputs is immediate: the embedding is a
pure function.) -/
theorem build_prompt_order_independent (catalog : List PromptElement)
    (ks1 ks2 : List String) (h : ∀ k, k ∈ ks1 ↔ k ∈ ks2) :
    build_prompt_from_elements catalog ks1 = build_prompt_from_elements catalog ks2 := by
  unfold build_prompt_from_elements
  rw [instructionsFor_congr catalog .format ks1 ks2 (fun e _ => h e.key),
      instructionsFor_congr catalog .style ks1 ks2 (fun e _ => h e.key),
      instructionsFor_congr catalog .grammar ks1 ks2 (fun e _ => h e.key)]

/-- Witness for C4: two concrete selections of the same keys in opposite
order compose to the same string. -/
theorem build_prompt_order_independent_witness :
    build_prompt_from_elements sampleCatalog ["oxford_comma", "bullet_points"]
      = build_prompt_from_elements sampleCatalog ["bullet_points", "oxford_comma"] :=
  build_prompt_order_independent sampleCatalog _ _ (fun k => by
    simp only [List.mem_cons, List.not_mem_nil, or_false]
    exact or_comm)

lemma knownKey_of_mem (catalog : List PromptElement) (e : PromptElement)
    (he : e ∈ catalog) : knownKey catalog e.key = true := by
  unfold knownKey
  exact List.any_eq_true.mpr ⟨e, he, by simp⟩

lemma instructionsFor_filter (catalog : List PromptElement) (c : ElementCategory)
    (ks : List String) (p : String → Bool) (hp : ∀ e ∈ catalog, p e.key = true) :
    instructionsFor catalog c (ks.filter p) = instructionsFor catalog c ks :=
  instructionsFor_congr catalog c _ _ (fun e he =>
    ⟨fun hm => (List.mem_filter.mp hm).1,
     fun hm => List.mem_filter.mpr ⟨hm, hp e he⟩⟩)

lemma filterMap_filter_of_none {α β : Type} (f : α → Option β) (p : α → Bool)
    (l : List α) (h : ∀ x ∈ l, p x = false → f x = none) :
    (l.filter p).filterMap f = l.filterMap f := by
  induction l with
  | nil => rfl
  | cons x rest ih =>
    have ih2 := ih (fun y hy hpy => h y (List.mem_cons_of_mem x hy) hpy)
    by_cases hx : p x
    · rw [List.filter_cons_of_pos hx, List.filterMap_cons, List.filterMap_cons, ih2]
    · rw [List.filter_cons_of_neg (by simpa using hx), List.filterMap_cons,
        h x (List.mem_cons_self x rest) (by simpa using hx), ih2]

lemma customStyleTexts_filter (catalog : List PromptElement) (lib : Library)
    (ks : List String) :
    customStyleTexts lib (ks.filter (resolvableKey catalog lib))
      = customStyleTexts lib ks := by
  unfold customStyleTexts
  apply filterMap_filter_of_none
  intro k _ hk
  rw [resolvableKey, Bool.or_eq_false_iff] at hk
  rcases hcr : customRefId k with _ | i
  · simp [hcr]
  · rw [hcr] at hk
    simp only [hcr]
    have h2 : (lib.get i).isSome = false := hk.2
    have hnone : lib.get i = none := Option.not_isSome_iff_eq_none.mp (by simp [h2])
    rw [hnone]
    rfl

/-- C7 — composition is total and degrades unresolvable references to
omission: removing the keys that are neither catalog elements nor resolvable
custom-prompt references changes neither `build_prompt_from_elements` nor the
style-elements section nor the final prompt — unknown keys are silently
dropped, never an error. -/
theorem composition_never_raises (catalog : List PromptElement) (lib : Library)
    (fs : List FoundationSection) (gs : GlobalStyle) (ks : List String) :
    build_prompt_from_elements catalog ks
      = build_prompt_from_elements catalog (ks.filter (knownKey catalog))
    ∧ elementsSection catalog lib ks
      = elementsSection catalog lib (ks.filter (resolvableKey catalog lib))
    ∧ build_final_prompt fs lib catalog { gs with selected_styles := ks }
      = build_final_prompt fs lib catalog
          { gs with selected_styles := ks.filter (resolvableKey catalog lib) } := by
  have hp1 : ∀ e ∈ catalog, knownKey catalog e.key = true :=
    fun e he => knownKey_of_mem catalog e he
  have hp2 : ∀ e ∈ catalog, resolvableKey catalog lib e.key = true :=
    fun e he => by simp [resolvableKey, knownKey_of_mem catalog e he]
  have hsec : elementsSection catalog lib (ks.filter (resolvableKey catalog lib))
      = elementsSection catalog lib ks := by
    unfold elementsSection
    rw [instructionsFor_filter _ _ _ _ hp2, instructionsFor_filter _ _ _ _ hp2,
        instructionsFor_filter _ _ _ _ hp2, customStyleTexts_filter]
  refine ⟨?_, hsec.symm, ?_⟩
  · unfold build_prompt_from_elements
    rw [instructionsFor_filter _ _ _ _ hp1, instructionsFor_filter _ _ _ _ hp1,
        instructionsFor_filter _ _ _ _ hp1]
  · simp only [build_final_prompt, writingSampleSection, flagTexts, formatSection,
      toneSection, verbositySection, effectiveFormality, effectiveVerbosity, hsec]

lemma eq_empty_of_length_zero (s : String) (h : s.length = 0) : s = "" := by
  cases s with
  | mk data =>
    simp [String.length] at h
    simp [h]

lemma append_ne_empty_left (s t : String) (h : s ≠ "") : s ++ t ≠ "" := by
  intro he
  apply h
  apply eq_empty_of_length_zero
  have hlen : (s ++ t).length = 0 := by rw [he]; decide
  rw [String.length_append] at hlen
  omega

lemma joinNonempty_ne_empty (l : List String) (s : String) (hmem : s ∈ l)
    (hs : s ≠ "") : joinNonempty l ≠ "" := by
  induction l with
  | nil => cases hmem
  | cons a rest ih =>
    simp only [joinNonempty]
    rcases List.mem_cons.mp hmem with rfl | hmem2
    · rw [if_neg hs]
      by_cases hrest : joinNonempty rest = ""
      · rw [if_pos hrest]; exact hs
      · rw [if_neg hrest]
        exact append_ne_empty_left _ _ (append_ne_empty_left _ _ hs)
    · have hr := ih hmem2
      by_cases ha : a = ""
      · rw [if_pos ha]; exact hr
      · rw [if_neg ha, if_neg hr]
        exact append_ne_empty_left _ _ (append_ne_empty_left _ _ ha)

lemma joinNonempty_cons_of_ne (s : String) (rest : List String) (h : s ≠ "") :
    ∃ r, joinNonempty (s :: rest) = s ++ r := by
  simp only [joinNonempty]
  rw [if_neg h]
  split
  · exact ⟨"", by simp⟩
  · exact ⟨"\n\n" ++ joinNonempty rest, by rw [← String.append_assoc]⟩

/-- C2 — verbatim short-circuit: when `format_preset = "verbatim"` the final
prompt is the foundation plus the minimal-transformation directive (plus the
trailing sample/flag sections), so it excludes every Format, Tone, Verbosity
and Format/Style/Grammar element section; a non-empty foundation opens the
output; and the output is never the empty string. -/
theorem verbatim_short_circuit (fs : List FoundationSection) (lib : Library)
    (catalog : List PromptElement) (gs : GlobalStyle)
    (h : gs.format_preset = "verbatim") :
    build_final_prompt fs lib catalog gs
      = joinNonempty
          ([foundationText fs, verbatimDirective, writingSampleSection gs] ++ flagTexts gs)
    ∧ (foundationText fs ≠ "" →
        ∃ rest, build_final_prompt fs lib catalog gs = foundationText fs ++ rest)
    ∧ build_final_prompt fs lib catalog gs ≠ "" := by
  have heq : build_final_prompt fs lib catalog gs
      = joinNonempty
          ([foundationText fs, verbatimDirective, writingSampleSection gs] ++ flagTexts gs) := by
    rw [build_final_prompt, if_pos h]
  refine ⟨heq, ?_, ?_⟩
  · intro hf
    rw [heq]
    exact joinNonempty_cons_of_ne _ _ hf
  · rw [heq]
    exact joinNonempty_ne_empty _ verbatimDirective (by simp) (by decide)

/-- Witness for C2 at a concrete verbatim configuration. -/
theorem verbatim_short_circuit_witness :
    build_final_prompt sampleFoundation sampleLib sampleCatalog sampleVerbatimStyle ≠ "" :=
  (verbatim_short_circuit sampleFoundation sampleLib sampleCatalog sampleVerbatimStyle rfl).2.2

/-- C3 — infer-format precedence: with `prompt_infer_format` set and any
non-verbatim `format_preset` (for example the explicit `"email"`), the
Format slot of the final prompt is exactly the infer-structure directive —
the resolved format's instruction text is omitted no matter what the library
resolves the preset to. -/
theorem infer_format_precedence (fs : List FoundationSection) (lib : Library)
    (catalog : List PromptElement) (gs : GlobalStyle)
    (h1 : gs.prompt_infer_format = true) (h2 : gs.format_preset ≠ "verbatim") :
    formatSection lib gs = inferFormatDirective
    ∧ build_final_prompt fs lib catalog gs
      = joinNonempty
          ([foundationText fs, inferFormatDirective, toneSection lib gs,
            verbositySection lib gs, elementsSection catalog lib gs.selected_styles,
            writingSampleSection gs] ++ flagTexts gs) := by
  have hfmt : formatSection lib gs = inferFormatDirective := by
    rw [formatSection, if_pos h1]
  refine ⟨hfmt, ?_⟩
  rw [build_final_prompt, if_neg h2, hfmt]

/-- Witness for C3 at a concrete configuration with `format_preset = "email"`
and the infer flag set. -/
theorem infer_format_precedence_witness :
    formatSection sampleLib sampleInferStyle = inferFormatDirective :=
  (infer_format_precedence sampleFoundation sampleLib sampleCatalog sampleInferStyle
    rfl (by decide)).1

/-- C5 — deletion guard: `delete_custom` on a builtin id fails with
InvalidOperationError and leaves the library state completely unchanged; on
an existing custom id it succeeds, removes exactly that entry from the
customs and from the favorites, and touches nothing else. -/
theorem delete_custom_spec (lib : Library) (id : String) :
    ((lib.builtins.find? (fun b => b.id == id)).isSome →
      (lib.delete_custom id).result = .error .invalidOperation
      ∧ (lib.delete_custom id).state = lib)
    ∧ (lib.builtins.find? (fun b => b.id == id) = none →
      (lib.customs.find? (fun c => c.id == id)).isSome →
      (lib.delete_custom id).result = .ok
      ∧ (lib.delete_custom id).state.customs = lib.customs.filter (fun c => c.id ≠ id)
      ∧ (lib.delete_custom id).state.favorites = lib.favorites.filter (fun p => p.1 ≠ id)
      ∧ (lib.delete_custom id).state.builtins = lib.builtins
      ∧ (lib.delete_custom id).state.overlays = lib.overlays) := by
  constructor
  · intro h
    simp only [Library.delete_custom, h, if_true]
    exact ⟨trivial, trivial⟩
  · intro h1 h2
    simp only [Library.delete_custom, h1, h2, Option.isSome_none, Bool.false_eq_true,
      if_false, if_true]
    exact ⟨trivial, trivial, trivial, trivial, trivial⟩

/-- Witness for C5: deleting the builtin `"email"` from the concrete sample
library fails with InvalidOperationError and changes nothing. -/
theorem delete_custom_spec_witness :
    (sampleLib.delete_custom "email").result = .error .invalidOperation
    ∧ (sampleLib.delete_custom "email").state = sampleLib :=
  (delete_custom_spec sampleLib "email").1 (by decide)

lemma lookup_append_of_none {β : Type} (a : String) (l1 l2 : List (String × β))
    (h : List.lookup a l1 = none) : List.lookup a (l1 ++ l2) = List.lookup a l2 := by
  induction l1 with
  | nil => rfl
  | cons p rest ih =>
    obtain ⟨k, v⟩ := p
    rw [List.cons_append]
    simp only [List.lookup] at h ⊢
    cases hak : (a == k) with
    | true => rw [hak] at h; exact Option.noConfusion h
    | false => rw [hak] at h; exact ih h

lemma get_isSome_of_favorites (lib : Library) (F : List (String × Int)) (i : String) :
    (Library.get { lib with favorites := F } i).isSome = (lib.get i).isSome := by
  unfold Library.get
  cases h : lib.builtins.find? (fun b => b.id == i) <;> simp [h, resolveBuiltin]

lemma le_maxFavoriteOrder (favs : List (String × Int)) :
    ∀ p ∈ favs, p.2 ≤ maxFavoriteOrder favs := by
  induction favs with
  | nil => intro p hp; cases hp
  | cons q rest ih =>
    intro p hp
    cases rest with
    | nil =>
      rcases List.mem_cons.mp hp with rfl | hp2
      · simp [maxFavoriteOrder]
      · cases hp2
    | cons r rs =>
      rcases List.mem_cons.mp hp with rfl | hp2
      · simp [maxFavoriteOrder]
      · exact le_trans (ih p hp2) (by simp [maxFavoriteOrder])

lemma maxFavoriteOrder_mem (favs : List (String × Int)) (h : favs ≠ []) :
    ∃ p ∈ favs, maxFavoriteOrder favs = p.2 := by
  induction favs with
  | nil => exact absurd rfl h
  | cons q rest ih =>
    cases rest with
    | nil => exact ⟨q, List.mem_cons_self q [], rfl⟩
    | cons r rs =>
      obtain ⟨p, hp, hmax⟩ := ih (by simp)
      by_cases hcmp : q.2 ≤ maxFavoriteOrder (r :: rs)
      · refine ⟨p, List.mem_cons_of_mem q hp, ?_⟩
        simp only [maxFavoriteOrder]
        rw [max_eq_right hcmp, hmax]
      · refine ⟨q, List.mem_cons_self q _, ?_⟩
        simp only [maxFavoriteOrder]
        rw [max_eq_left (le_of_not_le hcmp)]

/-- C6 — `add_favorite` is idempotent and assigns `max(existing) + 10` (or 0
when no favorites exist) on first addition: for an id that resolves via `get`
and is not yet favorited, the first call succeeds and records exactly
`maxFavoriteOrder + 10` (0 for an empty favorites list), where
`maxFavoriteOrder` is the true maximum of the existing orders — an upper
bound that is attained by one of them; and a second call leaves the state —
in particular the recorded favorite order — unchanged. -/
theorem add_favorite_idempotent (lib : Library) (id : String)
    (hres : (lib.get id).isSome) (hnew : List.lookup id lib.favorites = none) :
    (lib.add_favorite id).result = .ok
    ∧ List.lookup id ((lib.add_favorite id).state).favorites
        = some (if lib.favorites.isEmpty then 0 else maxFavoriteOrder lib.favorites + 10)
    ∧ (∀ p ∈ lib.favorites, p.2 ≤ maxFavoriteOrder lib.favorites)
    ∧ (lib.favorites ≠ [] → ∃ p ∈ lib.favorites, maxFavoriteOrder lib.favorites = p.2)
    ∧ ((lib.add_favorite id).state.add_favorite id).state = (lib.add_favorite id).state := by
  obtain ⟨c, hc⟩ := Option.isSome_iff_exists.mp hres
  have hstep : lib.add_favorite id =
      { result := .ok,
        state := { lib with
          favorites := lib.favorites ++ [(id, nextFavoriteOrder lib.favorites)] } } := by
    unfold Library.add_favorite
    rw [hc]
    simp [hnew]
  have hlk : List.lookup id (lib.favorites ++ [(id, nextFavoriteOrder lib.favorites)])
      = some (nextFavoriteOrder lib.favorites) := by
    rw [lookup_append_of_none id _ _ hnew]
    simp [List.lookup]
  refine ⟨by rw [hstep], ?_, le_maxFavoriteOrder lib.favorites,
    fun hne0 => maxFavoriteOrder_mem lib.favorites hne0, ?_⟩
  · rw [hstep]
    rw [hlk]
    rw [nextFavoriteOrder]
  · rw [hstep]
    unfold Library.add_favorite
    have hg := get_isSome_of_favorites lib
      (lib.favorites ++ [(id, nextFavoriteOrder lib.favorites)]) id
    have hne : Library.get
        { lib with favorites := lib.favorites ++ [(id, nextFavoriteOrder lib.favorites)] } id
        ≠ none := by
      intro h0
      rw [hc, h0] at hg
      simp at hg
    simp [hne, hlk]

/-- Witness for C6: adding the builtin `"email"` to the favorites of the
concrete sample library succeeds. -/
theorem add_favorite_idempotent_witness :
    (sampleLib.add_favorite "email").result = .ok :=
  (add_favorite_idempotent sampleLib "email" (by decide) (by decide)).1

@[simp] lemma applyFavorite_name (L : Library) (c : PromptConfig) :
    (applyFavorite L c).name = c.name := by
  unfold applyFavorite; cases List.lookup c.id L.favorites <;> rfl

@[simp] lemma applyFavorite_description (L : Library) (c : PromptConfig) :
    (applyFavorite L c).description = c.description := by
  unfold applyFavorite; cases List.lookup c.id L.favorites <;> rfl

@[simp] lemma applyFavorite_instruction (L : Library) (c : PromptConfig) :
    (applyFavorite L c).instruction = c.instruction := by
  unfold applyFavorite; cases List.lookup c.id L.favorites <;> rfl

@[simp] lemma applyFavorite_adherence (L : Library) (c : PromptConfig) :
    (applyFavorite L c).adherence = c.adherence := by
  unfold applyFavorite; cases List.lookup c.id L.favorites <;> rfl

@[simp] lemma applyFavorite_formality (L : Library) (c : PromptConfig) :
    (applyFavorite L c).formality = c.formality := by
  unfold applyFavorite; cases List.lookup c.id L.favorites <;> rfl

@[simp] lemma applyFavorite_verbosity (L : Library) (c : PromptConfig) :
    (applyFavorite L c).verbosity = c.verbosity := by
  unfold applyFavorite; cases List.lookup c.id L.favorites <;> rfl

@[simp] lemma applyFavorite_sig (L : Library) (c : PromptConfig) :
    (applyFavorite L c).use_business_signature = c.use_business_signature := by
  unfold applyFavorite; cases List.lookup c.id L.favorites <;> rfl

@[simp] lemma applyFavorite_is_modified (L : Library) (c : PromptConfig) :
    (applyFavorite L c).is_modified = c.is_modified := by
  unfold applyFavorite; cases List.lookup c.id L.favorites <;> rfl

lemma lookup_upsert_self (os : List (String × FieldOverrides)) (id : String)
    (ov : FieldOverrides) :
    List.lookup id (upsertOverlay os id ov) =
      some (match List.lookup id os with
            | some old => FieldOverrides.merge old ov
            | none => ov) := by
  induction os with
  | nil => simp [upsertOverlay, List.lookup]
  | cons p rest ih =>
    obtain ⟨k, o⟩ := p
    by_cases hk : k = id
    · subst hk
      simp [upsertOverlay, List.lookup]
    · have hbk : (id == k) = false := beq_eq_false_iff_ne.mpr (Ne.symm hk)
      simp [upsertOverlay, hk, List.lookup, hbk, ih]

lemma lookup_filter_ne {β : Type} (a : String) (l : List (String × β)) :
    List.lookup a (l.filter (fun p => p.1 ≠ a)) = none := by
  induction l with
  | nil => rfl
  | cons p rest ih =>
    obtain ⟨k, v⟩ := p
    by_cases hk : k = a
    · subst hk
      rw [List.filter_cons_of_neg (by simp)]
      exact ih
    · rw [List.filter_cons_of_pos (by simp [hk])]
      have hbk : (a == k) = false := beq_eq_false_iff_ne.mpr (Ne.symm hk)
      have hstep : List.lookup a ((k, v) :: rest.filter (fun p => p.1 ≠ a))
          = List.lookup a (rest.filter (fun p => p.1 ≠ a)) := by
        simp [List.lookup, hbk]
      rw [hstep]
      exact ih

lemma get_builtin_eq (lib : Library) (id : String) (b : PromptConfig)
    (hb : lib.builtins.find? (fun x => x.id == id) = some b) :
    lib.get id = some (applyFavorite lib (resolveBuiltin lib b)) := by
  unfold Library.get
  rw [hb]

lemma resolveBuiltin_some (lib : Library) (b : PromptConfig) (o : FieldOverrides)
    (h : List.lookup b.id lib.overlays = some o) :
    resolveBuiltin lib b = applyOverrides b o := by
  unfold resolveBuiltin
  rw [h]

lemma resolveBuiltin_none (lib : Library) (b : PromptConfig)
    (h : List.lookup b.id lib.overlays = none) :
    resolveBuiltin lib b = { b with is_modified := false } := by
  unfold resolveBuiltin
  rw [h]

/-- C1 — non-destructive overlay: a successful `modify_builtin(id, ov)`
changes only the fields supplied in `ov` (each unsupplied field reads back
exactly as before the call, whether that was the builtin default or a
previously-overlaid value), and `reset_builtin` afterwards restores every
field to the builtin template value, clearing the modified mark. -/
theorem modify_builtin_frame (lib : Library) (id : String) (ov : FieldOverrides)
    (h : (lib.modify_builtin id ov).result = .ok) :
    (ov.name = none →
      ((lib.modify_builtin id ov).state.get id).map (fun c => c.name)
        = (lib.get id).map (fun c => c.name))
    ∧ (ov.description = none →
      ((lib.modify_builtin id ov).state.get id).map (fun c => c.description)
        = (lib.get id).map (fun c => c.description))
    ∧ (ov.instruction = none →
      ((lib.modify_builtin id ov).state.get id).map (fun c => c.instruction)
        = (lib.get id).map (fun c => c.instruction))
    ∧ (ov.adherence = none →
      ((lib.modify_builtin id ov).state.get id).map (fun c => c.adherence)
        = (lib.get id).map (fun c => c.adherence))
    ∧ (ov.formality = none →
      ((lib.modify_builtin id ov).state.get id).map (fun c => c.formality)
        = (lib.get id).map (fun c => c.formality))
    ∧ (ov.verbosity = none →
      ((lib.modify_builtin id ov).state.get id).map (fun c => c.verbosity)
        = (lib.get id).map (fun c => c.verbosity))
    ∧ (ov.use_business_signature = none →
      ((lib.modify_builtin id ov).state.get id).map (fun c => c.use_business_signature)
        = (lib.get id).map (fun c => c.use_business_signature))
    ∧ (∀ b, lib.builtins.find? (fun x => x.id == id) = some b →
        ∀ c, ((lib.modify_builtin id ov).state.reset_builtin id).get id = some c →
          c.name = b.name ∧ c.description = b.description
          ∧ c.instruction = b.instruction ∧ c.adherence = b.adherence
          ∧ c.formality = b.formality ∧ c.verbosity = b.verbosity
          ∧ c.use_business_signature = b.use_business_signature
          ∧ c.is_modified = false) := by
  have hfind : (lib.builtins.find? (fun b => b.id == id)).isSome = true := by
    by_contra hn
    have hn2 : (lib.builtins.find? (fun b => b.id == id)).isSome = false :=
      Bool.eq_false_iff.mpr hn
    simp [Library.modify_builtin, hn2] at h
  obtain ⟨b, hb⟩ := Option.isSome_iff_exists.mp hfind
  have hpred := @List.find?_some PromptConfig (fun x => x.id == id) b lib.builtins hb
  have hbid : b.id = id := eq_of_beq hpred
  have hstate : (lib.modify_builtin id ov).state
      = { lib with overlays := upsertOverlay lib.overlays id ov } := by
    simp [Library.modify_builtin, hfind]
  have hlk1 : List.lookup b.id
      (({ lib with overlays := upsertOverlay lib.overlays id ov } : Library).overlays)
      = some (match List.lookup id lib.overlays with
              | some old => FieldOverrides.merge old ov
              | none => ov) := by
    rw [hbid]
    exact lookup_upsert_self lib.overlays id ov
  have hget1 : (lib.modify_builtin id ov).state.get id
      = some (applyFavorite { lib with overlays := upsertOverlay lib.overlays id ov }
          (applyOverrides b
            (match List.lookup id lib.overlays with
             | some old => FieldOverrides.merge old ov
             | none => ov))) := by
    rw [hstate,
      get_builtin_eq { lib with overlays := upsertOverlay lib.overlays id ov } id b hb,
      resolveBuiltin_some _ b _ hlk1]
  have hlk2 : List.lookup b.id
      ((({ lib with overlays := upsertOverlay lib.overlays id ov } : Library).reset_builtin
          id).overlays) = none := by
    rw [hbid]
    exact lookup_filter_ne id _
  have hreset : (({ lib with overlays := upsertOverlay lib.overlays id ov } : Library).reset_builtin
        id).get id
      = some (applyFavorite
          (({ lib with overlays := upsertOverlay lib.overlays id ov } : Library).reset_builtin id)
          { b with is_modified := false }) := by
    rw [get_builtin_eq
        (({ lib with overlays := upsertOverlay lib.overlays id ov } : Library).reset_builtin id)
        id b hb,
      resolveBuiltin_none _ b hlk2]
  have hresetPart : ∀ b0, lib.builtins.find? (fun x => x.id == id) = some b0 →
      ∀ c, ((lib.modify_builtin id ov).state.reset_builtin id).get id = some c →
        c.name = b0.name ∧ c.description = b0.description
        ∧ c.instruction = b0.instruction ∧ c.adherence = b0.adherence
        ∧ c.formality = b0.formality ∧ c.verbosity = b0.verbosity
        ∧ c.use_business_signature = b0.use_business_signature
        ∧ c.is_modified = false := by
    intro b0 hb0 c hc
    have hbb : b0 = b := by
      rw [hb] at hb0
      exact (Option.some.inj hb0).symm
    subst hbb
    rw [hstate, hreset] at hc
    have hc2 : c = applyFavorite
        (({ lib with overlays := upsertOverlay lib.overlays id ov } : Library).reset_builtin id)
        { b0 with is_modified := false } := (Option.some.inj hc).symm
    subst hc2
    refine ⟨by simp, by simp, by simp, by simp, by simp, by simp, by simp, by simp⟩
  rcases hov : List.lookup id lib.overlays with _ | old
  · have hgetpre : lib.get id
        = some (applyFavorite lib { b with is_modified := false }) := by
      rw [get_builtin_eq lib id b hb, resolveBuiltin_none lib b (by rw [hbid]; exact hov)]
    rw [hov] at hget1
    refine ⟨?_, ?_, ?_, ?_, ?_, ?_, ?_, hresetPart⟩ <;>
      · intro hnone
        rw [hget1, hgetpre]
        simp [applyOverrides, hnone]
  · have hgetpre : lib.get id
        = some (applyFavorite lib (applyOverrides b old)) := by
      rw [get_builtin_eq lib id b hb, resolveBuiltin_some lib b old (by rw [hbid]; exact hov)]
    rw [hov] at hget1
    refine ⟨?_, ?_, ?_, ?_, ?_, ?_, ?_, hresetPart⟩ <;>
      · intro hnone
        rw [hget1, hgetpre]
        simp [applyOverrides, FieldOverrides.merge, hnone]

/-- Witness for C1: overlaying only the instruction of the builtin `"email"`
in the concrete sample library leaves the read-back description unchanged,
and resetting restores the original instruction. -/
theorem modify_builtin_frame_witness :
    ((sampleLib.modify_builtin "email" sampleOverrides).state.get "email").map
        (fun c => c.description)
      = (sampleLib.get "email").map (fun c => c.description)
    ∧ ∀ c, ((sampleLib.modify_builtin "email" sampleOverrides).state.reset_builtin
          "email").get "email" = some c →
        c.instruction = sampleBuiltinEmail.instruction := by
  have h := modify_builtin_frame sampleLib "email" sampleOverrides (by decide)
  refine ⟨h.2.1 rfl, fun c hc => ?_⟩
  exact ((h.2.2.2.2.2.2.2 sampleBuiltinEmail (by decide)) c hc).2.2.1
